import Mathlib

/-!
# The data-sync BLE service (`ble_data_sync.c`, `ble_data_sync.h`)

A shallow embedding of the control-point service: the service structure, the
two file-scope variables, the events delivered by the BLE stack, and the
functions `on_connect`, `is_cccd_configured`, `on_write`, `on_disconnect`,
`ble_data_sync_on_ble_evt`, `ble_data_sync_init` and
`ble_data_sync_response_send`.

Conventions of the embedding.

* C integers are natural numbers; the two `(uint8_t)` casts of
  `ble_data_sync_response_send` are `% 256`.
* A pointer argument that the source compares with `NULL` is an `Option`.
* The SoftDevice (the BLE stack) is outside the repository. It is a parameter:
  a record of transition functions over an abstract stack state `σ`, so a call
  may answer differently each time it is made. Every call that leaves the
  module is appended to a log, `Module.calls`.
* A function that returns a value and changes file-scope state returns a pair.
-/

namespace BleDataSync

/-! ## Constants -/

/-- Modelled from the spec: the SDK constant `NRF_SUCCESS` (nrf_error.h, which
is not among the sources), the registry's `success` status, with its SDK
value. -/
def NRF_SUCCESS : Nat := 0

/-- Modelled from the spec: the SDK constant `NRF_ERROR_INVALID_STATE`
(nrf_error.h, not among the sources), the `InvalidState` error. -/
def NRF_ERROR_INVALID_STATE : Nat := 8

/-- Modelled from the spec: the SDK constant `NRF_ERROR_NULL` (nrf_error.h, not
among the sources), the `NullService` error. -/
def NRF_ERROR_NULL : Nat := 14

/-- Modelled from the spec: the SDK constant `BLE_CONN_HANDLE_INVALID`
(ble_types.h, not among the sources), the `no active connection` value of
`conn_handle`. -/
def BLE_CONN_HANDLE_INVALID : Nat := 0xFFFF

/-- Modelled from the spec: the SDK constant `BLE_GATT_HVX_NOTIFICATION`
(ble_gatt.h, not among the sources), the `notification` kind of a
handle-value transmission. -/
def BLE_GATT_HVX_NOTIFICATION : Nat := 0x01

/-- Modelled from the spec: the SDK constant `BLE_CCCD_VALUE_LEN`
(ble_srv_common.h, not among the sources), the size in bytes of a subscription
descriptor value. -/
def BLE_CCCD_VALUE_LEN : Nat := 2

/-- Modelled from the spec: the SDK constant `BLE_GATTS_SRVC_TYPE_PRIMARY`
(ble_gatts.h, not among the sources), the kind of a primary service. -/
def BLE_GATTS_SRVC_TYPE_PRIMARY : Nat := 0x01

/-- Modelled from the spec: the SDK constant `BLE_GATTS_VLOC_STACK`
(ble_gatts.h, not among the sources): the attribute value lives in the stack. -/
def BLE_GATTS_VLOC_STACK : Nat := 0x01

/-- Modelled from the spec: the SDK constant `BLE_L2CAP_MTU_DEF` (ble_l2cap.h,
not among the sources), `the transport's default payload size`. -/
def BLE_L2CAP_MTU_DEF : Nat := 23

/-- The `BLE_DATA_SYNC_SERVICE_UUID` of ble_data_sync.h. -/
def BLE_DATA_SYNC_SERVICE_UUID : Nat := 0x1570

/-- The `BLE_DATA_SYNC_CTRL_PT_UUID` of ble_data_sync.h. -/
def BLE_DATA_SYNC_CTRL_PT_UUID : Nat := 0x1572

/-- The `BLE_DATA_SYNC_REV_CHAR_UUID` of ble_data_sync.h. -/
def BLE_DATA_SYNC_REV_CHAR_UUID : Nat := 0x1574

/-- The `MAX_PKTS_RCPT_NOTIF_LEN` of ble_data_sync.c. -/
def MAX_PKTS_RCPT_NOTIF_LEN : Nat := 6

/-- The `MAX_RESPONSE_LEN` of ble_data_sync.c. -/
def MAX_RESPONSE_LEN : Nat := 7

/-- The `MAX_NOTIF_BUFFER_LEN` of ble_data_sync.c:
`MAX(MAX_PKTS_RCPT_NOTIF_LEN, MAX_RESPONSE_LEN)`. -/
def MAX_NOTIF_BUFFER_LEN : Nat := max MAX_PKTS_RCPT_NOTIF_LEN MAX_RESPONSE_LEN

/-- The `OP_CODE_START_DATA_SYNC` of the anonymous enum of ble_data_sync.c. -/
def OP_CODE_START_DATA_SYNC : Nat := 1

/-- The `OP_CODE_RESPONSE` of the anonymous enum of ble_data_sync.c. -/
def OP_CODE_RESPONSE : Nat := 0x5B

/-- The enumerator of `ble_data_sync_procedure_t` with value 1. -/
def BLE_DATA_SYNC_START_PROCEDURE : Nat := 1
/-- The enumerator of `ble_data_sync_procedure_t` with value 2. -/
def BLE_DATA_SYNC_INIT_PROCEDURE : Nat := 2
/-- The enumerator of `ble_data_sync_procedure_t` with value 3. -/
def BLE_DATA_SYNC_RECEIVE_APP_PROCEDURE : Nat := 3
/-- The enumerator of `ble_data_sync_procedure_t` with value 4. -/
def BLE_DATA_SYNC_VALIDATE_PROCEDURE : Nat := 4
/-- The enumerator of `ble_data_sync_procedure_t` with value 8. -/
def BLE_DATA_SYNC_PKT_RCPT_REQ_PROCEDURE : Nat := 8

/-- The first enumerator of `ble_data_sync_resp_val_t`, given the value 1. -/
def BLE_DATA_SYNC_RESP_VAL_SUCCESS : Nat := 1
/-- The next enumerator of `ble_data_sync_resp_val_t`: 2. -/
def BLE_DATA_SYNC_RESP_VAL_INVALID_STATE : Nat := 2
/-- The next enumerator of `ble_data_sync_resp_val_t`: 3. -/
def BLE_DATA_SYNC_RESP_VAL_NOT_SUPPORTED : Nat := 3
/-- The next enumerator of `ble_data_sync_resp_val_t`: 4. -/
def BLE_DATA_SYNC_RESP_VAL_DATA_SIZE : Nat := 4
/-- The next enumerator of `ble_data_sync_resp_val_t`: 5. -/
def BLE_DATA_SYNC_RESP_VAL_CRC_ERROR : Nat := 5
/-- The last enumerator of `ble_data_sync_resp_val_t`: 6. -/
def BLE_DATA_SYNC_RESP_VAL_OPER_FAILED : Nat := 6

/-- The values a `ble_data_sync_procedure_t` is declared to take. -/
def valid_procedure (data_sync_proc : Nat) : Prop :=
  data_sync_proc ∈ [BLE_DATA_SYNC_START_PROCEDURE, BLE_DATA_SYNC_INIT_PROCEDURE,
    BLE_DATA_SYNC_RECEIVE_APP_PROCEDURE, BLE_DATA_SYNC_VALIDATE_PROCEDURE,
    BLE_DATA_SYNC_PKT_RCPT_REQ_PROCEDURE]

instance (data_sync_proc : Nat) : Decidable (valid_procedure data_sync_proc) := by
  unfold valid_procedure; infer_instance

/-- The values a `ble_data_sync_resp_val_t` is declared to take. -/
def valid_resp_val (resp_val : Nat) : Prop :=
  resp_val ∈ [BLE_DATA_SYNC_RESP_VAL_SUCCESS, BLE_DATA_SYNC_RESP_VAL_INVALID_STATE,
    BLE_DATA_SYNC_RESP_VAL_NOT_SUPPORTED, BLE_DATA_SYNC_RESP_VAL_DATA_SIZE,
    BLE_DATA_SYNC_RESP_VAL_CRC_ERROR, BLE_DATA_SYNC_RESP_VAL_OPER_FAILED]

instance (resp_val : Nat) : Decidable (valid_resp_val resp_val) := by
  unfold valid_resp_val; infer_instance

/-! ## Data model -/

/-- The SDK structure `ble_gatts_char_handles_t`: the handles the stack hands
out for one characteristic. -/
structure ble_gatts_char_handles_t where
  value_handle : Nat
  user_desc_handle : Nat
  cccd_handle : Nat
  sccd_handle : Nat
deriving DecidableEq, Repr

/-- The `struct ble_data_sync_s` of ble_data_sync.h. The two function pointers
are kept as `is it non-NULL`: a call through `error_handler` is recorded in the
call log. -/
structure ble_data_sync_t where
  conn_handle : Nat
  revision : Nat
  service_handle : Nat
  uuid_type : Nat
  data_sync_pkt_handles : ble_gatts_char_handles_t
  data_sync_ctrl_pt_handles : ble_gatts_char_handles_t
  data_sync_status_rep_handles : ble_gatts_char_handles_t
  data_sync_rev_handles : ble_gatts_char_handles_t
  evt_handler : Bool
  error_handler : Bool
deriving DecidableEq, Repr

/-- The SDK structure `ble_gatts_hvx_params_t` as `ble_data_sync_response_send`
fills it. `p_len` is the value of `index` that `p_len` points to and `p_data`
the content of the buffer that `p_data` points to. -/
structure ble_gatts_hvx_params_t where
  handle : Nat
  type : Nat
  offset : Nat
  p_len : Nat
  p_data : List Nat
deriving DecidableEq, Repr

/-- The bytes a transmission request designates: the first `p_len` bytes at
`p_data`. -/
def ble_gatts_hvx_params_t.payload (p : ble_gatts_hvx_params_t) : List Nat :=
  p.p_data.take p.p_len

/-- The write parameters of a `BLE_GATTS_EVT_WRITE` event
(`evt.gatts_evt.params.write`). `len` is the number of bytes the peer wrote and
`data i` is the byte held by slot `i` of the array `data` of the event; the
slots below `len` hold what the peer wrote. -/
structure ble_gatts_evt_write_t where
  handle : Nat
  offset : Nat
  len : Nat
  data : Nat → Nat

/-- The event `ble_evt_t`: the tag `header.evt_id` with the member of the union
`evt` that goes with it. `other` stands for every tag the switch of
`ble_data_sync_on_ble_evt` sends to `default`. -/
inductive ble_evt_t where
  | BLE_GAP_EVT_CONNECTED (conn_handle : Nat)
  | BLE_GATTS_EVT_WRITE (conn_handle : Nat) (write : ble_gatts_evt_write_t)
  | BLE_GAP_EVT_DISCONNECTED (conn_handle : Nat)
  | other (evt_id : Nat)

/-- The `ble_data_sync_init_t` of ble_data_sync.h; the function pointers as in
`ble_data_sync_t`. -/
structure ble_data_sync_init_t where
  revision : Nat
  evt_handler : Bool
  error_handler : Bool
deriving DecidableEq, Repr

/-- The SDK structure `ble_uuid_t`. -/
structure ble_uuid_t where
  uuid : Nat
  type : Nat
deriving DecidableEq, Repr

/-- The SDK structure `ble_gap_conn_sec_mode_t`: security mode and level. -/
structure ble_gap_conn_sec_mode_t where
  sm : Nat
  lv : Nat
deriving DecidableEq, Repr

/-- Modelled from the spec: the SDK macro `BLE_GAP_CONN_SEC_MODE_SET_OPEN`
(ble_gap.h, not among the sources): access is permitted on an open link. -/
def BLE_GAP_CONN_SEC_MODE_SET_OPEN : ble_gap_conn_sec_mode_t := { sm := 1, lv := 1 }

/-- Modelled from the spec: the SDK macro `BLE_GAP_CONN_SEC_MODE_SET_NO_ACCESS`
(ble_gap.h, not among the sources): access is forbidden. -/
def BLE_GAP_CONN_SEC_MODE_SET_NO_ACCESS : ble_gap_conn_sec_mode_t := { sm := 0, lv := 0 }

/-- The fields of the SDK structure `ble_gatts_attr_md_t` that the source
sets; `memset` leaves the others 0. -/
structure ble_gatts_attr_md_t where
  read_perm : ble_gap_conn_sec_mode_t
  write_perm : ble_gap_conn_sec_mode_t
  vloc : Nat
deriving DecidableEq, Repr

/-- The fields of the SDK structure `ble_gatts_char_md_t` that the source
sets; `memset` leaves the others 0 (the pointers NULL). -/
structure ble_gatts_char_md_t where
  char_props_read : Nat
  char_props_write : Nat
  char_props_notify : Nat
  p_cccd_md : Option ble_gatts_attr_md_t
deriving DecidableEq, Repr

/-- The SDK structure `ble_gatts_attr_t`; `p_value` is the 16-bit value the
pointer designates, `none` for NULL. -/
structure ble_gatts_attr_t where
  p_uuid : ble_uuid_t
  p_attr_md : ble_gatts_attr_md_t
  init_len : Nat
  init_offs : Nat
  max_len : Nat
  p_value : Option Nat
deriving DecidableEq, Repr

/-- One call that leaves the module, with the arguments it is made with. -/
inductive Call where
  | sd_ble_gatts_value_get (conn_handle handle len offset : Nat)
  | error_handler (err_code : Nat)
  | sd_ble_gatts_hvx (conn_handle : Nat) (p_hvx_params : ble_gatts_hvx_params_t)
  | sd_ble_uuid_vs_add (p_vs_uuid : List Nat)
  | sd_ble_gatts_service_add (type : Nat) (p_uuid : ble_uuid_t)
  | sd_ble_gatts_characteristic_add (service_handle : Nat) (p_char_md : ble_gatts_char_md_t)
      (p_attr_char_value : ble_gatts_attr_t)
  | app_error_handler (err_code : Nat)
deriving DecidableEq, Repr

/-- The BLE stack and SDK the module is linked against, over a stack state
`σ`. Each SoftDevice call maps the stack state and the arguments to the status
code, the content of the output parameter after the call, and the next stack
state. -/
structure Platform (σ : Type) where
  /-- Answers `sd_ble_gatts_value_get(conn_handle, handle, &value)` for
  `value.len` and `value.offset`: status, bytes at `value.p_value` afterwards. -/
  sd_ble_gatts_value_get : σ → Nat → Nat → Nat → Nat → Nat × List Nat × σ
  /-- Answers `sd_ble_gatts_hvx(conn_handle, &hvx_params)`: status. -/
  sd_ble_gatts_hvx : σ → Nat → ble_gatts_hvx_params_t → Nat × σ
  /-- The SDK helper `ble_srv_is_notification_enabled` (ble_srv_common.h), on
  the bytes of the subscription descriptor. -/
  ble_srv_is_notification_enabled : List Nat → Bool
  /-- The 16 bytes `VSTEAM_BLE_BASE_UUID` of vsteam_type.h. -/
  VSTEAM_BLE_BASE_UUID : List Nat
  /-- Answers `sd_ble_uuid_vs_add(&base_uuid, &type)`: status, `type` afterwards. -/
  sd_ble_uuid_vs_add : σ → List Nat → Nat × Nat × σ
  /-- Answers `sd_ble_gatts_service_add(type, &uuid, &handle)`: status, `handle`
  afterwards. -/
  sd_ble_gatts_service_add : σ → Nat → ble_uuid_t → Nat × Nat × σ
  /-- Answers `sd_ble_gatts_characteristic_add(service_handle, &char_md,
  &attr_char_value, &handles)`: status, `handles` afterwards. -/
  sd_ble_gatts_characteristic_add :
    σ → Nat → ble_gatts_char_md_t → ble_gatts_attr_t → Nat × ble_gatts_char_handles_t × σ

/-- The file-scope state of ble_data_sync.c, `m_is_data_sync_service_initialized`
and `m_notif_buffer`, with the state of the stack and the log of the calls
made so far. -/
structure Module (σ : Type) where
  m_is_data_sync_service_initialized : Bool
  m_notif_buffer : Fin MAX_NOTIF_BUFFER_LEN → Nat
  softdevice : σ
  calls : List Call

/-- The assignment `buf[i] = v` to an array of `uint8_t`. -/
def store (buf : Fin MAX_NOTIF_BUFFER_LEN → Nat) (i v : Nat) :
    Fin MAX_NOTIF_BUFFER_LEN → Nat :=
  fun j => if j.val = i then v % 256 else buf j

/-- The notifications of a call log, oldest first: the connection each is
requested for and its parameters. -/
def notifications : List Call → List (Nat × ble_gatts_hvx_params_t)
  | [] => []
  | Call.sd_ble_gatts_hvx c p :: cs => (c, p) :: notifications cs
  | _ :: cs => notifications cs

/-- The error codes a call log passes to the error callback, oldest first. -/
def error_reports : List Call → List Nat
  | [] => []
  | Call.error_handler e :: cs => e :: error_reports cs
  | _ :: cs => error_reports cs

/-! ## The functions of ble_data_sync.c -/

/-- The `on_connect` of ble_data_sync.c. -/
def on_connect (p_data : ble_data_sync_t) (conn_handle : Nat) : ble_data_sync_t :=
  { p_data with conn_handle := conn_handle }

/-- The `on_disconnect` of ble_data_sync.c. -/
def on_disconnect (p_data : ble_data_sync_t) (_conn_handle : Nat) : ble_data_sync_t :=
  { p_data with conn_handle := BLE_CONN_HANDLE_INVALID }

/-- The `is_cccd_configured` of ble_data_sync.c. -/
def is_cccd_configured {σ : Type} (P : Platform σ) (m : Module σ)
    (p_data : ble_data_sync_t) : Bool × Module σ :=
  let r := P.sd_ble_gatts_value_get m.softdevice p_data.conn_handle
    p_data.data_sync_ctrl_pt_handles.cccd_handle BLE_CCCD_VALUE_LEN 0
  let err_code := r.1
  let cccd_val_buf := r.2.1
  let m1 : Module σ := { m with
    softdevice := r.2.2
    calls := m.calls ++ [Call.sd_ble_gatts_value_get p_data.conn_handle
      p_data.data_sync_ctrl_pt_handles.cccd_handle BLE_CCCD_VALUE_LEN 0] }
  if err_code ≠ NRF_SUCCESS then
    if p_data.error_handler then
      (false, { m1 with calls := m1.calls ++ [Call.error_handler err_code] })
    else
      (false, m1)
  else
    (P.ble_srv_is_notification_enabled cccd_val_buf, m1)

/-- The `ble_data_sync_response_send` of ble_data_sync.c. -/
def ble_data_sync_response_send {σ : Type} (P : Platform σ) (m : Module σ)
    (p_data : Option ble_data_sync_t) (data_sync_proc resp_val : Nat) : Nat × Module σ :=
  match p_data with
  | none => (NRF_ERROR_NULL, m)
  | some d =>
    if d.conn_handle = BLE_CONN_HANDLE_INVALID ∨ m.m_is_data_sync_service_initialized = false then
      (NRF_ERROR_INVALID_STATE, m)
    else
      let index := 0
      let buf0 := store m.m_notif_buffer index OP_CODE_RESPONSE
      let index := index + 1
      let buf1 := store buf0 index data_sync_proc
      let index := index + 1
      let buf2 := store buf1 index resp_val
      let index := index + 1
      let hvx_params : ble_gatts_hvx_params_t :=
        { handle := d.data_sync_ctrl_pt_handles.value_handle
          type := BLE_GATT_HVX_NOTIFICATION
          offset := 0
          p_len := index
          p_data := List.ofFn buf2 }
      let r := P.sd_ble_gatts_hvx m.softdevice d.conn_handle hvx_params
      (r.1, { m with
        m_notif_buffer := buf2
        softdevice := r.2
        calls := m.calls ++ [Call.sd_ble_gatts_hvx d.conn_handle hvx_params] })

/-- The `on_write` of ble_data_sync.c. The header is slot 0 of the event data,
read without looking at `len`; the local copy `p_ble_write_evt` of the write
parameters is never used and is left out. -/
def on_write {σ : Type} (P : Platform σ) (m : Module σ) (p_data : ble_data_sync_t)
    (write : ble_gatts_evt_write_t) : Module σ :=
  if write.handle = p_data.data_sync_ctrl_pt_handles.value_handle then
    let r := is_cccd_configured P m p_data
    if r.1 = false then
      r.2
    else
      let header := write.data 0
      if header = 0x5A then
        (ble_data_sync_response_send P r.2 (some p_data) BLE_DATA_SYNC_INIT_PROCEDURE
          BLE_DATA_SYNC_RESP_VAL_SUCCESS).2
      else
        r.2
  else
    m

/-- The `ble_data_sync_on_ble_evt` of ble_data_sync.c: the service structure
after the event (when there is one) and the module state after it. -/
def ble_data_sync_on_ble_evt {σ : Type} (P : Platform σ) (m : Module σ)
    (p_data : Option ble_data_sync_t) (p_ble_evt : Option ble_evt_t) :
    Option ble_data_sync_t × Module σ :=
  match p_data, p_ble_evt with
  | some d, some (ble_evt_t.BLE_GAP_EVT_CONNECTED c) => (some (on_connect d c), m)
  | some d, some (ble_evt_t.BLE_GATTS_EVT_WRITE _ w) => (some d, on_write P m d w)
  | some d, some (ble_evt_t.BLE_GAP_EVT_DISCONNECTED c) => (some (on_disconnect d c), m)
  | some d, some (ble_evt_t.other _) => (some d, m)
  | _, _ => (p_data, m)

/-- Modelled from the spec: the SDK macro `APP_ERROR_CHECK` (app_error.h, not
among the sources). A status other than `NRF_SUCCESS` goes to the application's
fatal error handler and `the reference behavior aborts the process on such
failure`: the run ends there, with the status and the module state reached. -/
def APP_ERROR_CHECK {σ : Type} (err_code : Nat) (m : Module σ) : Except (Nat × Module σ) (Module σ) :=
  if err_code ≠ NRF_SUCCESS then
    Except.error (err_code, { m with calls := m.calls ++ [Call.app_error_handler err_code] })
  else
    Except.ok m

/-- The `data_sync_rev_char_add` of ble_data_sync.c: the returned status, the
service structure and the module state; `Except.error` when the run is aborted. -/
def data_sync_rev_char_add {σ : Type} (P : Platform σ) (m : Module σ) (p_data : ble_data_sync_t)
    (p_data_sync_init : ble_data_sync_init_t) :
    Except (Nat × Module σ) (Nat × ble_data_sync_t × Module σ) :=
  let char_uuid : ble_uuid_t := { type := p_data.uuid_type, uuid := BLE_DATA_SYNC_REV_CHAR_UUID }
  let char_md : ble_gatts_char_md_t :=
    { char_props_read := 1, char_props_write := 0, char_props_notify := 0, p_cccd_md := none }
  let attr_md : ble_gatts_attr_md_t :=
    { vloc := BLE_GATTS_VLOC_STACK
      read_perm := BLE_GAP_CONN_SEC_MODE_SET_OPEN
      write_perm := BLE_GAP_CONN_SEC_MODE_SET_NO_ACCESS }
  let attr_char_value : ble_gatts_attr_t :=
    { p_uuid := char_uuid
      p_attr_md := attr_md
      max_len := 2
      init_len := 2
      init_offs := 0
      p_value := some p_data_sync_init.revision }
  let r := P.sd_ble_gatts_characteristic_add m.softdevice p_data.service_handle char_md
    attr_char_value
  let err_code := r.1
  let p_data1 := { p_data with data_sync_rev_handles := r.2.1 }
  let m1 : Module σ := { m with
    softdevice := r.2.2
    calls := m.calls ++ [Call.sd_ble_gatts_characteristic_add p_data.service_handle char_md
      attr_char_value] }
  match APP_ERROR_CHECK err_code m1 with
  | Except.error e => Except.error e
  | Except.ok m2 => Except.ok (NRF_SUCCESS, p_data1, m2)

/-- The `data_sync_ctrl_pt_add` of ble_data_sync.c. -/
def data_sync_ctrl_pt_add {σ : Type} (P : Platform σ) (m : Module σ) (p_data : ble_data_sync_t) :
    Except (Nat × Module σ) (Nat × ble_data_sync_t × Module σ) :=
  let char_uuid : ble_uuid_t := { type := p_data.uuid_type, uuid := BLE_DATA_SYNC_CTRL_PT_UUID }
  let char_md : ble_gatts_char_md_t :=
    { char_props_read := 0, char_props_write := 1, char_props_notify := 1, p_cccd_md := none }
  let attr_md : ble_gatts_attr_md_t :=
    { vloc := BLE_GATTS_VLOC_STACK
      read_perm := BLE_GAP_CONN_SEC_MODE_SET_NO_ACCESS
      write_perm := BLE_GAP_CONN_SEC_MODE_SET_OPEN }
  let attr_char_value : ble_gatts_attr_t :=
    { p_uuid := char_uuid
      p_attr_md := attr_md
      init_len := 0
      init_offs := 0
      max_len := BLE_L2CAP_MTU_DEF
      p_value := none }
  let r := P.sd_ble_gatts_characteristic_add m.softdevice p_data.service_handle char_md
    attr_char_value
  let err_code := r.1
  let p_data1 := { p_data with data_sync_ctrl_pt_handles := r.2.1 }
  let m1 : Module σ := { m with
    softdevice := r.2.2
    calls := m.calls ++ [Call.sd_ble_gatts_characteristic_add p_data.service_handle char_md
      attr_char_value] }
  match APP_ERROR_CHECK err_code m1 with
  | Except.error e => Except.error e
  | Except.ok m2 => Except.ok (NRF_SUCCESS, p_data1, m2)

/-- The `ble_data_sync_init` of ble_data_sync.c. The statuses of
`sd_ble_uuid_vs_add` and `sd_ble_gatts_service_add` are assigned to `err_code`
and overwritten without being read. -/
def ble_data_sync_init {σ : Type} (P : Platform σ) (m : Module σ) (p_data : ble_data_sync_t)
    (p_data_init : ble_data_sync_init_t) :
    Except (Nat × Module σ) (Nat × ble_data_sync_t × Module σ) :=
  let r1 := P.sd_ble_uuid_vs_add m.softdevice P.VSTEAM_BLE_BASE_UUID
  let service_uuid : ble_uuid_t := { uuid := BLE_DATA_SYNC_SERVICE_UUID, type := r1.2.1 }
  let m1 : Module σ := { m with
    softdevice := r1.2.2
    calls := m.calls ++ [Call.sd_ble_uuid_vs_add P.VSTEAM_BLE_BASE_UUID] }
  let d1 := { p_data with conn_handle := BLE_CONN_HANDLE_INVALID }
  let r2 := P.sd_ble_gatts_service_add m1.softdevice BLE_GATTS_SRVC_TYPE_PRIMARY service_uuid
  let d2 := { d1 with service_handle := r2.2.1 }
  let m2 : Module σ := { m1 with
    softdevice := r2.2.2
    calls := m1.calls ++ [Call.sd_ble_gatts_service_add BLE_GATTS_SRVC_TYPE_PRIMARY service_uuid] }
  let d3 := { d2 with uuid_type := service_uuid.type }
  match data_sync_rev_char_add P m2 d3 p_data_init with
  | Except.error e => Except.error e
  | Except.ok (_, d4, m4) =>
    match data_sync_ctrl_pt_add P m4 d4 with
    | Except.error e => Except.error e
    | Except.ok (_, d5, m5) =>
      Except.ok (NRF_SUCCESS, d5, { m5 with m_is_data_sync_service_initialized := true })

/-! ## Concrete stacks, services and events -/

/-- The body of the SDK's `ble_srv_is_notification_enabled`: bit 0 of the
little-endian 16-bit descriptor value. -/
def sdk_is_notification_enabled (p_encoded_data : List Nat) : Bool :=
  ((p_encoded_data.getD 0 0 + 256 * p_encoded_data.getD 1 0) &&& BLE_GATT_HVX_NOTIFICATION) != 0

/-- The handles of a characteristic with value handle `v` and descriptor
handle `c`. -/
def handles (v c : Nat) : ble_gatts_char_handles_t :=
  { value_handle := v, user_desc_handle := 0, cccd_handle := c, sccd_handle := 0 }

/-- A stack, its state the number of calls answered, that answers every
descriptor read with status `get_status` and bytes `cccd`, every notification
with `hvx_status`, the service registration with `service_status` and the
registration of the characteristic with UUID `u` with `char_status u`. -/
def stack (get_status : Nat) (cccd : List Nat) (hvx_status service_status : Nat)
    (char_status : Nat → Nat) : Platform Nat where
  sd_ble_gatts_value_get := fun s _ _ _ _ => (get_status, cccd, s + 1)
  sd_ble_gatts_hvx := fun s _ _ => (hvx_status, s + 1)
  ble_srv_is_notification_enabled := sdk_is_notification_enabled
  VSTEAM_BLE_BASE_UUID := List.replicate 16 0
  sd_ble_uuid_vs_add := fun s _ => (0, 2, s + 1)
  sd_ble_gatts_service_add := fun s _ _ => (service_status, 12, s + 1)
  sd_ble_gatts_characteristic_add := fun s _ _ a =>
    (char_status a.p_uuid.uuid, handles (2 * s + 10) (2 * s + 11), s + 1)

/-- A stack on which every call succeeds and the peer is subscribed. -/
def stack_ok : Platform Nat := stack 0 [1, 0] 0 0 (fun _ => 0)

/-- A service structure with connection handle `conn_handle`, control-point
value handle 14 and descriptor handle 15. -/
def service (conn_handle : Nat) (error_handler : Bool) : ble_data_sync_t where
  conn_handle := conn_handle
  revision := 1
  service_handle := 12
  uuid_type := 2
  data_sync_pkt_handles := handles 0 0
  data_sync_ctrl_pt_handles := handles 14 15
  data_sync_status_rep_handles := handles 0 0
  data_sync_rev_handles := handles 16 0
  evt_handler := false
  error_handler := error_handler

/-- A service structure in zeroed storage, as a C object of static storage
duration is before `ble_data_sync_init` has been called on it: every field 0,
both function pointers NULL. -/
def service_zeroed : ble_data_sync_t where
  conn_handle := 0
  revision := 0
  service_handle := 0
  uuid_type := 0
  data_sync_pkt_handles := handles 0 0
  data_sync_ctrl_pt_handles := handles 0 0
  data_sync_status_rep_handles := handles 0 0
  data_sync_rev_handles := handles 0 0
  evt_handler := false
  error_handler := false

/-- The module state with the given flag, a zeroed notification buffer and an
empty call log. -/
def module0 (is_initialized : Bool) : Module Nat where
  m_is_data_sync_service_initialized := is_initialized
  m_notif_buffer := fun _ => 0
  softdevice := 0
  calls := []

/-- A write of `len` bytes to handle `handle` whose data slots all hold `byte`. -/
def write_of (handle len byte : Nat) : ble_gatts_evt_write_t where
  handle := handle
  offset := 0
  len := len
  data := fun _ => byte

/-- The parameter block `hvx_params` that `ble_data_sync_response_send` hands
to `sd_ble_gatts_hvx` once its two guards are passed. -/
def response_params {σ : Type} (m : Module σ) (d : ble_data_sync_t)
    (data_sync_proc resp_val : Nat) : ble_gatts_hvx_params_t :=
  { handle := d.data_sync_ctrl_pt_handles.value_handle
    type := BLE_GATT_HVX_NOTIFICATION
    offset := 0
    p_len := 3
    p_data := List.ofFn
      (store (store (store m.m_notif_buffer 0 OP_CODE_RESPONSE) 1 data_sync_proc) 2 resp_val) }

/-! ## Runs: events and direct calls in sequence -/

/-- One thing that happens to the service: the stack delivers an event, which
goes to `ble_data_sync_on_ble_evt`, or the application calls
`ble_data_sync_response_send`, in both cases with the address of the service
structure. -/
inductive Action where
  | event (p_ble_evt : ble_evt_t)
  | response_send (data_sync_proc resp_val : Nat)

/-- The service structure and the module state after one action. -/
def step {σ : Type} (P : Platform σ) (s : ble_data_sync_t × Module σ) (a : Action) :
    ble_data_sync_t × Module σ :=
  match a with
  | Action.event e =>
    ((ble_data_sync_on_ble_evt P s.2 (some s.1) (some e)).1.getD s.1,
      (ble_data_sync_on_ble_evt P s.2 (some s.1) (some e)).2)
  | Action.response_send data_sync_proc resp_val =>
    (s.1, (ble_data_sync_response_send P s.2 (some s.1) data_sync_proc resp_val).2)

/-- The service structure and the module state after a sequence of actions,
the first of the list happening first. -/
def run {σ : Type} (P : Platform σ) (s : ble_data_sync_t × Module σ) (as : List Action) :
    ble_data_sync_t × Module σ :=
  as.foldl (step P) s

/-- The kind of the latest connect or disconnect event once `a` has happened,
`prev` being the kind before it: `some true` for a connect, `some false` for a
disconnect, `none` when there has been neither. -/
def link_after (prev : Option Bool) (a : Action) : Option Bool :=
  match a with
  | Action.event (ble_evt_t.BLE_GAP_EVT_CONNECTED _) => some true
  | Action.event (ble_evt_t.BLE_GAP_EVT_DISCONNECTED _) => some false
  | _ => prev

/-- The kind of the most recent connect or disconnect event of a sequence:
`some true` when it is a connect, `some false` when it is a disconnect, `none`
when the sequence holds neither. -/
def last_link_event (as : List Action) : Option Bool :=
  as.foldl link_after none

/-! ## Lemmas on the call log and on the two guards -/

theorem notifications_append (a b : List Call) :
    notifications (a ++ b) = notifications a ++ notifications b := by
  induction a with
  | nil => rfl
  | cons x xs ih => cases x <;> simp [notifications, ih]

theorem error_reports_append (a b : List Call) :
    error_reports (a ++ b) = error_reports a ++ error_reports b := by
  induction a with
  | nil => rfl
  | cons x xs ih => cases x <;> simp [error_reports, ih]

/-- The frame of a response: three bytes, the response op code, the
procedure and the result, each reduced to a byte. -/
theorem response_params_payload {σ : Type} (m : Module σ) (d : ble_data_sync_t)
    (data_sync_proc resp_val : Nat) :
    (response_params m d data_sync_proc resp_val).payload =
      [OP_CODE_RESPONSE, data_sync_proc % 256, resp_val % 256] := by
  rfl

/-- Past its guards `ble_data_sync_response_send` fills the buffer, asks the
stack for one notification and returns the status of the stack. -/
theorem response_send_ready {σ : Type} (P : Platform σ) (m : Module σ) (d : ble_data_sync_t)
    (data_sync_proc resp_val : Nat)
    (hinit : m.m_is_data_sync_service_initialized = true)
    (hconn : d.conn_handle ≠ BLE_CONN_HANDLE_INVALID) :
    ble_data_sync_response_send P m (some d) data_sync_proc resp_val =
      ((P.sd_ble_gatts_hvx m.softdevice d.conn_handle
          (response_params m d data_sync_proc resp_val)).1,
        { m with
          m_notif_buffer :=
            store (store (store m.m_notif_buffer 0 OP_CODE_RESPONSE) 1 data_sync_proc) 2 resp_val
          softdevice := (P.sd_ble_gatts_hvx m.softdevice d.conn_handle
            (response_params m d data_sync_proc resp_val)).2
          calls := m.calls ++ [Call.sd_ble_gatts_hvx d.conn_handle
            (response_params m d data_sync_proc resp_val)] }) := by
  simp [ble_data_sync_response_send, hinit, hconn, response_params]

/-- Stopped by a guard, `ble_data_sync_response_send` changes nothing. -/
theorem response_send_blocked {σ : Type} (P : Platform σ) (m : Module σ) (d : ble_data_sync_t)
    (data_sync_proc resp_val : Nat)
    (h : d.conn_handle = BLE_CONN_HANDLE_INVALID ∨
      m.m_is_data_sync_service_initialized = false) :
    ble_data_sync_response_send P m (some d) data_sync_proc resp_val =
      (NRF_ERROR_INVALID_STATE, m) := by
  simp [ble_data_sync_response_send, h]

/-- The subscription check leaves the two file-scope variables alone. -/
theorem is_cccd_configured_statics {σ : Type} (P : Platform σ) (m : Module σ)
    (d : ble_data_sync_t) :
    (is_cccd_configured P m d).2.m_is_data_sync_service_initialized =
        m.m_is_data_sync_service_initialized ∧
      (is_cccd_configured P m d).2.m_notif_buffer = m.m_notif_buffer := by
  unfold is_cccd_configured
  dsimp only
  split
  · split <;> exact ⟨rfl, rfl⟩
  · exact ⟨rfl, rfl⟩

/-- The subscription check requests no notification. -/
theorem is_cccd_configured_notifications {σ : Type} (P : Platform σ) (m : Module σ)
    (d : ble_data_sync_t) :
    notifications (is_cccd_configured P m d).2.calls = notifications m.calls := by
  unfold is_cccd_configured
  dsimp only
  split
  · split <;> simp [notifications_append, notifications]
  · simp [notifications_append, notifications]

/-- The error reports of the subscription check: the status of the descriptor
read when it is a failure and a callback is registered, nothing otherwise. -/
theorem is_cccd_configured_error_reports {σ : Type} (P : Platform σ) (m : Module σ)
    (d : ble_data_sync_t) :
    error_reports (is_cccd_configured P m d).2.calls =
      error_reports m.calls ++
        (if (P.sd_ble_gatts_value_get m.softdevice d.conn_handle
              d.data_sync_ctrl_pt_handles.cccd_handle BLE_CCCD_VALUE_LEN 0).1 ≠ NRF_SUCCESS ∧
            d.error_handler = true then
          [(P.sd_ble_gatts_value_get m.softdevice d.conn_handle
              d.data_sync_ctrl_pt_handles.cccd_handle BLE_CCCD_VALUE_LEN 0).1]
        else []) := by
  unfold is_cccd_configured
  dsimp only
  split
  · rename_i herr
    split
    · rename_i hcb
      simp [error_reports_append, error_reports, herr, hcb]
    · rename_i hcb
      simp [error_reports_append, error_reports, herr, hcb]
  · rename_i herr
    simp [error_reports_append, error_reports, herr]

/-- A write to the control point whose subscription check fails stops after
the check. -/
theorem on_write_unsubscribed {σ : Type} (P : Platform σ) (m : Module σ) (d : ble_data_sync_t)
    (w : ble_gatts_evt_write_t)
    (hh : w.handle = d.data_sync_ctrl_pt_handles.value_handle)
    (hsub : (is_cccd_configured P m d).1 = false) :
    on_write P m d w = (is_cccd_configured P m d).2 := by
  simp [on_write, hh, hsub]

/-- A subscribed write to the control point whose slot 0 is not 0x5A stops
after the check. -/
theorem on_write_other_header {σ : Type} (P : Platform σ) (m : Module σ) (d : ble_data_sync_t)
    (w : ble_gatts_evt_write_t)
    (hh : w.handle = d.data_sync_ctrl_pt_handles.value_handle)
    (hsub : (is_cccd_configured P m d).1 = true)
    (hb : w.data 0 ≠ 0x5A) :
    on_write P m d w = (is_cccd_configured P m d).2 := by
  simp [on_write, hh, hsub, hb]

/-- A subscribed write to the control point whose slot 0 is 0x5A goes on to
`ble_data_sync_response_send`. -/
theorem on_write_start {σ : Type} (P : Platform σ) (m : Module σ) (d : ble_data_sync_t)
    (w : ble_gatts_evt_write_t)
    (hh : w.handle = d.data_sync_ctrl_pt_handles.value_handle)
    (hsub : (is_cccd_configured P m d).1 = true)
    (hb : w.data 0 = 0x5A) :
    on_write P m d w =
      (ble_data_sync_response_send P (is_cccd_configured P m d).2 (some d)
        BLE_DATA_SYNC_INIT_PROCEDURE BLE_DATA_SYNC_RESP_VAL_SUCCESS).2 := by
  simp [on_write, hh, hsub, hb]

/-- A subscription check that returns true has read the descriptor with
status `NRF_SUCCESS`. -/
theorem is_cccd_configured_true_read_ok {σ : Type} (P : Platform σ) (m : Module σ)
    (d : ble_data_sync_t) (hsub : (is_cccd_configured P m d).1 = true) :
    (P.sd_ble_gatts_value_get m.softdevice d.conn_handle
      d.data_sync_ctrl_pt_handles.cccd_handle BLE_CCCD_VALUE_LEN 0).1 = NRF_SUCCESS := by
  unfold is_cccd_configured at hsub
  dsimp only at hsub
  split at hsub
  · split at hsub <;> simp at hsub
  · rename_i h
    exact not_not.mp h

/-- The error callback is not called by `ble_data_sync_response_send`. -/
theorem response_send_error_reports {σ : Type} (P : Platform σ) (m : Module σ)
    (p_data : Option ble_data_sync_t) (data_sync_proc resp_val : Nat) :
    error_reports (ble_data_sync_response_send P m p_data data_sync_proc resp_val).2.calls =
      error_reports m.calls := by
  cases p_data with
  | none => rfl
  | some d =>
    unfold ble_data_sync_response_send
    dsimp only
    split
    · rfl
    · simp [error_reports_append, error_reports]

/-! ## The write of the start command (C1) -/

/-- C1, as stated, fails: the service is connected (handle 0), the write goes to
the control-point value handle (14), its first byte is 0x5A and the
subscription check returns true, but `m_is_data_sync_service_initialized` is
false, and `ble_data_sync_on_ble_evt` requests no notification at all: the
second guard of `ble_data_sync_response_send` stops it. -/
theorem C1_counterexample_not_initialized :
    (service 0 false).conn_handle ≠ BLE_CONN_HANDLE_INVALID ∧
    (write_of 14 1 0x5A).handle = (service 0 false).data_sync_ctrl_pt_handles.value_handle ∧
    (write_of 14 1 0x5A).len = 1 ∧
    (write_of 14 1 0x5A).data 0 = 0x5A ∧
    (is_cccd_configured stack_ok (module0 false) (service 0 false)).1 = true ∧
    notifications (ble_data_sync_on_ble_evt stack_ok (module0 false) (some (service 0 false))
      (some (ble_evt_t.BLE_GATTS_EVT_WRITE 0 (write_of 14 1 0x5A)))).2.calls = [] := by
  decide

/-- C1, amended: when the service is initialized and connected, a write event to
the control-point value handle whose first data byte is 0x5A and for which the
subscription check returns true makes `ble_data_sync_on_ble_evt` request exactly
one notification: for the tracked connection, on the control-point value
handle, of kind notification, at offset 0, with the 3-byte payload
`[0x5B, 2, 1]`. -/
theorem C1_start_write_sends_one_response {σ : Type} (P : Platform σ) (m : Module σ)
    (d : ble_data_sync_t) (c : Nat) (w : ble_gatts_evt_write_t)
    (hinit : m.m_is_data_sync_service_initialized = true)
    (hconn : d.conn_handle ≠ BLE_CONN_HANDLE_INVALID)
    (hh : w.handle = d.data_sync_ctrl_pt_handles.value_handle)
    (hb : w.data 0 = 0x5A)
    (hsub : (is_cccd_configured P m d).1 = true) :
    ∃ p : ble_gatts_hvx_params_t,
      notifications (ble_data_sync_on_ble_evt P m (some d)
        (some (ble_evt_t.BLE_GATTS_EVT_WRITE c w))).2.calls =
          notifications m.calls ++ [(d.conn_handle, p)] ∧
      p.handle = d.data_sync_ctrl_pt_handles.value_handle ∧
      p.type = BLE_GATT_HVX_NOTIFICATION ∧
      p.offset = 0 ∧
      p.payload = [0x5B, 2, 1] := by
  have hinit1 : (is_cccd_configured P m d).2.m_is_data_sync_service_initialized = true := by
    rw [(is_cccd_configured_statics P m d).1]; exact hinit
  refine ⟨response_params (is_cccd_configured P m d).2 d BLE_DATA_SYNC_INIT_PROCEDURE
    BLE_DATA_SYNC_RESP_VAL_SUCCESS, ?_, rfl, rfl, rfl, ?_⟩
  · show notifications (on_write P m d w).calls = _
    rw [on_write_start P m d w hh hsub hb, response_send_ready P _ d _ _ hinit1 hconn]
    simp [notifications_append, notifications, is_cccd_configured_notifications]
  · rw [response_params_payload]; rfl

/-- C1, amended, at an initialized service connected on handle 0. -/
theorem C1_start_write_sends_one_response_witness :
    ∃ p : ble_gatts_hvx_params_t,
      notifications (ble_data_sync_on_ble_evt stack_ok (module0 true) (some (service 0 false))
        (some (ble_evt_t.BLE_GATTS_EVT_WRITE 0 (write_of 14 1 0x5A)))).2.calls =
          notifications (module0 true).calls ++ [((service 0 false).conn_handle, p)] ∧
      p.handle = (service 0 false).data_sync_ctrl_pt_handles.value_handle ∧
      p.type = BLE_GATT_HVX_NOTIFICATION ∧
      p.offset = 0 ∧
      p.payload = [0x5B, 2, 1] :=
  C1_start_write_sends_one_response stack_ok (module0 true) (service 0 false) 0
    (write_of 14 1 0x5A) rfl (by decide) rfl rfl (by decide)

/-! ## The guards of `ble_data_sync_response_send` (C2, C3) -/

/-- C2: with a non-null service and `m_is_data_sync_service_initialized` false,
`ble_data_sync_response_send` returns `NRF_ERROR_INVALID_STATE` for every
procedure, result and `conn_handle`, and leaves the module state as it was: the
notification buffer is not written and no call, `sd_ble_gatts_hvx` included, is
made. -/
theorem C2_not_initialized_invalid_state {σ : Type} (P : Platform σ) (m : Module σ)
    (d : ble_data_sync_t) (data_sync_proc resp_val : Nat)
    (hinit : m.m_is_data_sync_service_initialized = false) :
    (ble_data_sync_response_send P m (some d) data_sync_proc resp_val).1 =
        NRF_ERROR_INVALID_STATE ∧
      (ble_data_sync_response_send P m (some d) data_sync_proc resp_val).2 = m ∧
      (ble_data_sync_response_send P m (some d) data_sync_proc resp_val).2.m_notif_buffer =
        m.m_notif_buffer ∧
      (ble_data_sync_response_send P m (some d) data_sync_proc resp_val).2.calls = m.calls := by
  rw [response_send_blocked P m d data_sync_proc resp_val (Or.inr hinit)]
  exact ⟨rfl, rfl, rfl, rfl⟩

/-- C2 at a connected service (handle 0) that is not initialized. -/
theorem C2_not_initialized_invalid_state_witness :
    (ble_data_sync_response_send stack_ok (module0 false) (some (service 0 false)) 2 1).1 =
        NRF_ERROR_INVALID_STATE ∧
      (ble_data_sync_response_send stack_ok (module0 false) (some (service 0 false)) 2 1).2 =
        module0 false ∧
      (ble_data_sync_response_send stack_ok (module0 false) (some (service 0 false)) 2
        1).2.m_notif_buffer = (module0 false).m_notif_buffer ∧
      (ble_data_sync_response_send stack_ok (module0 false) (some (service 0 false)) 2
        1).2.calls = (module0 false).calls :=
  C2_not_initialized_invalid_state stack_ok (module0 false) (service 0 false) 2 1 rfl

/-- C3: from any service and module state, a connect event carrying `c` followed
at once by a disconnect event leaves a service whose `conn_handle` is
`BLE_CONN_HANDLE_INVALID`; and on that service every
`ble_data_sync_response_send`, in whatever module state and for whatever
procedure and result, returns `NRF_ERROR_INVALID_STATE` and changes nothing, so
the same holds of each call that follows it. -/
theorem C3_connect_then_disconnect {σ : Type} (P : Platform σ) (m : Module σ)
    (d : ble_data_sync_t) (c c' : Nat) :
    ∃ d' : ble_data_sync_t,
      ble_data_sync_on_ble_evt P
          (ble_data_sync_on_ble_evt P m (some d) (some (ble_evt_t.BLE_GAP_EVT_CONNECTED c))).2
          (ble_data_sync_on_ble_evt P m (some d) (some (ble_evt_t.BLE_GAP_EVT_CONNECTED c))).1
          (some (ble_evt_t.BLE_GAP_EVT_DISCONNECTED c')) = (some d', m) ∧
      d'.conn_handle = BLE_CONN_HANDLE_INVALID ∧
      ∀ (m' : Module σ) (data_sync_proc resp_val : Nat),
        ble_data_sync_response_send P m' (some d') data_sync_proc resp_val =
          (NRF_ERROR_INVALID_STATE, m') := by
  refine ⟨on_disconnect (on_connect d c) c', rfl, rfl, ?_⟩
  intro m' data_sync_proc resp_val
  exact response_send_blocked P m' _ data_sync_proc resp_val (Or.inl rfl)

/-! ## The response frame (C4) -/

/-- C4: for a valid procedure (1, 2, 3, 4 or 8) and a valid result (1 to 6), the
one request that `ble_data_sync_response_send` makes of the stack, on an
initialized and connected service, carries a frame of exactly 3 bytes: byte 0
is `OP_CODE_RESPONSE`, which is 0x5B and not the command header 0x5A, byte 1
is the procedure code and byte 2 the result code, and the same three bytes are
in `m_notif_buffer`. -/
theorem C4_response_frame {σ : Type} (P : Platform σ) (m : Module σ) (d : ble_data_sync_t)
    (data_sync_proc resp_val : Nat)
    (hp : valid_procedure data_sync_proc) (hr : valid_resp_val resp_val)
    (hinit : m.m_is_data_sync_service_initialized = true)
    (hconn : d.conn_handle ≠ BLE_CONN_HANDLE_INVALID) :
    ∃ p : ble_gatts_hvx_params_t,
      (ble_data_sync_response_send P m (some d) data_sync_proc resp_val).2.calls =
        m.calls ++ [Call.sd_ble_gatts_hvx d.conn_handle p] ∧
      p.p_len = 3 ∧
      p.payload = [OP_CODE_RESPONSE, data_sync_proc, resp_val] ∧
      ((ble_data_sync_response_send P m (some d) data_sync_proc resp_val).2.m_notif_buffer
          ⟨0, by decide⟩ = OP_CODE_RESPONSE ∧
        (ble_data_sync_response_send P m (some d) data_sync_proc resp_val).2.m_notif_buffer
          ⟨1, by decide⟩ = data_sync_proc ∧
        (ble_data_sync_response_send P m (some d) data_sync_proc resp_val).2.m_notif_buffer
          ⟨2, by decide⟩ = resp_val) ∧
      OP_CODE_RESPONSE = 0x5B ∧ OP_CODE_RESPONSE ≠ 0x5A := by
  have hp1 : data_sync_proc % 256 = data_sync_proc := by
    unfold valid_procedure at hp
    simp only [List.mem_cons, List.mem_singleton, List.not_mem_nil, or_false] at hp
    rcases hp with h | h | h | h | h <;> subst h <;> rfl
  have hr1 : resp_val % 256 = resp_val := by
    unfold valid_resp_val at hr
    simp only [List.mem_cons, List.mem_singleton, List.not_mem_nil, or_false] at hr
    rcases hr with h | h | h | h | h | h <;> subst h <;> rfl
  refine ⟨response_params m d data_sync_proc resp_val, ?_, rfl, ?_, ?_, rfl, by decide⟩
  · rw [response_send_ready P m d _ _ hinit hconn]
  · rw [response_params_payload, hp1, hr1]
  · rw [response_send_ready P m d _ _ hinit hconn]
    refine ⟨rfl, ?_, ?_⟩
    · show data_sync_proc % 256 = data_sync_proc
      exact hp1
    · show resp_val % 256 = resp_val
      exact hr1

/-- C4 at the pair (validate, CRC error) = (4, 5). -/
theorem C4_response_frame_witness :
    ∃ p : ble_gatts_hvx_params_t,
      (ble_data_sync_response_send stack_ok (module0 true) (some (service 0 false)) 4 5).2.calls =
        (module0 true).calls ++ [Call.sd_ble_gatts_hvx (service 0 false).conn_handle p] ∧
      p.p_len = 3 ∧
      p.payload = [OP_CODE_RESPONSE, 4, 5] ∧
      ((ble_data_sync_response_send stack_ok (module0 true) (some (service 0 false)) 4
          5).2.m_notif_buffer ⟨0, by decide⟩ = OP_CODE_RESPONSE ∧
        (ble_data_sync_response_send stack_ok (module0 true) (some (service 0 false)) 4
          5).2.m_notif_buffer ⟨1, by decide⟩ = 4 ∧
        (ble_data_sync_response_send stack_ok (module0 true) (some (service 0 false)) 4
          5).2.m_notif_buffer ⟨2, by decide⟩ = 5) ∧
      OP_CODE_RESPONSE = 0x5B ∧ OP_CODE_RESPONSE ≠ 0x5A :=
  C4_response_frame stack_ok (module0 true) (service 0 false) 4 5 (by decide) (by decide) rfl
    (by decide)

/-! ## Writes that get no response (C5, C6) -/

/-- C5: a write event to the control-point value handle, whatever its data (a
header 0x5A included), for which the subscription check returns false makes
`ble_data_sync_on_ble_evt` request no notification. The error callback is not
called when the descriptor read returned `NRF_SUCCESS`; when the read returned
another status the callback, if one is registered, is called once, with that
status. -/
theorem C5_unsubscribed_write_dropped {σ : Type} (P : Platform σ) (m : Module σ)
    (d : ble_data_sync_t) (c : Nat) (w : ble_gatts_evt_write_t)
    (hh : w.handle = d.data_sync_ctrl_pt_handles.value_handle)
    (hsub : (is_cccd_configured P m d).1 = false) :
    notifications (ble_data_sync_on_ble_evt P m (some d)
        (some (ble_evt_t.BLE_GATTS_EVT_WRITE c w))).2.calls = notifications m.calls ∧
      ((P.sd_ble_gatts_value_get m.softdevice d.conn_handle
            d.data_sync_ctrl_pt_handles.cccd_handle BLE_CCCD_VALUE_LEN 0).1 = NRF_SUCCESS →
        error_reports (ble_data_sync_on_ble_evt P m (some d)
          (some (ble_evt_t.BLE_GATTS_EVT_WRITE c w))).2.calls = error_reports m.calls) ∧
      ((P.sd_ble_gatts_value_get m.softdevice d.conn_handle
            d.data_sync_ctrl_pt_handles.cccd_handle BLE_CCCD_VALUE_LEN 0).1 ≠ NRF_SUCCESS →
        error_reports (ble_data_sync_on_ble_evt P m (some d)
          (some (ble_evt_t.BLE_GATTS_EVT_WRITE c w))).2.calls =
            error_reports m.calls ++
              (if d.error_handler = true then
                [(P.sd_ble_gatts_value_get m.softdevice d.conn_handle
                  d.data_sync_ctrl_pt_handles.cccd_handle BLE_CCCD_VALUE_LEN 0).1]
              else [])) := by
  have hev : (ble_data_sync_on_ble_evt P m (some d)
      (some (ble_evt_t.BLE_GATTS_EVT_WRITE c w))).2 = (is_cccd_configured P m d).2 :=
    on_write_unsubscribed P m d w hh hsub
  rw [hev]
  refine ⟨is_cccd_configured_notifications P m d, ?_, ?_⟩
  · intro hok
    rw [is_cccd_configured_error_reports]
    simp [hok]
  · intro herr
    rw [is_cccd_configured_error_reports]
    simp [herr]

/-- C5 at a descriptor read that fails with status 5 on a service with an error
callback, the write carrying the header 0x5A. -/
theorem C5_unsubscribed_write_dropped_witness :
    notifications (ble_data_sync_on_ble_evt (stack 5 [] 0 0 (fun _ => 0)) (module0 true)
        (some (service 0 true))
        (some (ble_evt_t.BLE_GATTS_EVT_WRITE 0 (write_of 14 1 0x5A)))).2.calls =
          notifications (module0 true).calls ∧
      (((stack 5 [] 0 0 (fun _ => 0)).sd_ble_gatts_value_get (module0 true).softdevice
            (service 0 true).conn_handle (service 0 true).data_sync_ctrl_pt_handles.cccd_handle
            BLE_CCCD_VALUE_LEN 0).1 = NRF_SUCCESS →
        error_reports (ble_data_sync_on_ble_evt (stack 5 [] 0 0 (fun _ => 0)) (module0 true)
          (some (service 0 true))
          (some (ble_evt_t.BLE_GATTS_EVT_WRITE 0 (write_of 14 1 0x5A)))).2.calls =
            error_reports (module0 true).calls) ∧
      (((stack 5 [] 0 0 (fun _ => 0)).sd_ble_gatts_value_get (module0 true).softdevice
            (service 0 true).conn_handle (service 0 true).data_sync_ctrl_pt_handles.cccd_handle
            BLE_CCCD_VALUE_LEN 0).1 ≠ NRF_SUCCESS →
        error_reports (ble_data_sync_on_ble_evt (stack 5 [] 0 0 (fun _ => 0)) (module0 true)
          (some (service 0 true))
          (some (ble_evt_t.BLE_GATTS_EVT_WRITE 0 (write_of 14 1 0x5A)))).2.calls =
            error_reports (module0 true).calls ++
              (if (service 0 true).error_handler = true then
                [((stack 5 [] 0 0 (fun _ => 0)).sd_ble_gatts_value_get (module0 true).softdevice
                  (service 0 true).conn_handle
                  (service 0 true).data_sync_ctrl_pt_handles.cccd_handle BLE_CCCD_VALUE_LEN 0).1]
              else [])) :=
  C5_unsubscribed_write_dropped (stack 5 [] 0 0 (fun _ => 0)) (module0 true) (service 0 true) 0
    (write_of 14 1 0x5A) rfl (by decide)

/-- C6: a write event to the control-point value handle whose header byte is
not 0x5A, with the subscription check returning true, makes
`ble_data_sync_on_ble_evt` request no notification and hands back the
service structure as it was, `conn_handle` included. -/
theorem C6_other_header_ignored {σ : Type} (P : Platform σ) (m : Module σ)
    (d : ble_data_sync_t) (c : Nat) (w : ble_gatts_evt_write_t)
    (hh : w.handle = d.data_sync_ctrl_pt_handles.value_handle)
    (hb : w.data 0 ≠ 0x5A)
    (hsub : (is_cccd_configured P m d).1 = true) :
    notifications (ble_data_sync_on_ble_evt P m (some d)
        (some (ble_evt_t.BLE_GATTS_EVT_WRITE c w))).2.calls = notifications m.calls ∧
      (ble_data_sync_on_ble_evt P m (some d)
        (some (ble_evt_t.BLE_GATTS_EVT_WRITE c w))).1 = some d ∧
      ∀ d' : ble_data_sync_t,
        (ble_data_sync_on_ble_evt P m (some d)
          (some (ble_evt_t.BLE_GATTS_EVT_WRITE c w))).1 = some d' →
        d'.conn_handle = d.conn_handle := by
  have hev : (ble_data_sync_on_ble_evt P m (some d)
      (some (ble_evt_t.BLE_GATTS_EVT_WRITE c w))).2 = (is_cccd_configured P m d).2 :=
    on_write_other_header P m d w hh hsub hb
  rw [hev]
  refine ⟨is_cccd_configured_notifications P m d, rfl, ?_⟩
  intro d' hd'
  have hd : some d = some d' := hd'
  rw [← Option.some.inj hd]

/-- C6 at the header 0xFF. -/
theorem C6_other_header_ignored_witness :
    notifications (ble_data_sync_on_ble_evt stack_ok (module0 true) (some (service 0 false))
        (some (ble_evt_t.BLE_GATTS_EVT_WRITE 0 (write_of 14 1 0xFF)))).2.calls =
          notifications (module0 true).calls ∧
      (ble_data_sync_on_ble_evt stack_ok (module0 true) (some (service 0 false))
        (some (ble_evt_t.BLE_GATTS_EVT_WRITE 0 (write_of 14 1 0xFF)))).1 =
          some (service 0 false) ∧
      ∀ d' : ble_data_sync_t,
        (ble_data_sync_on_ble_evt stack_ok (module0 true) (some (service 0 false))
          (some (ble_evt_t.BLE_GATTS_EVT_WRITE 0 (write_of 14 1 0xFF)))).1 = some d' →
        d'.conn_handle = (service 0 false).conn_handle :=
  C6_other_header_ignored stack_ok (module0 true) (service 0 false) 0 (write_of 14 1 0xFF) rfl
    (by decide) (by decide)

/-! ## Two connects in a row (C7) -/

/-- A connect event stores the handle it carries, whatever the service held and
whatever the handle is. -/
theorem connect_overwrites {σ : Type} (P : Platform σ) (m : Module σ) (d : ble_data_sync_t)
    (c : Nat) :
    ble_data_sync_on_ble_evt P m (some d) (some (ble_evt_t.BLE_GAP_EVT_CONNECTED c)) =
      (some { d with conn_handle := c }, m) := by
  rfl

/-- C7: from any service and module state, and for any connection identifiers
`c1` and `c2` (`c2` being a handle of a connection, not the reserved value
`BLE_CONN_HANDLE_INVALID`), a connect event carrying `c1` followed by a connect
event carrying `c2`, with nothing in between, leaves a service that is
connected (its `conn_handle` is not `BLE_CONN_HANDLE_INVALID`) and whose
`conn_handle` is `c2`, the other fields and the module state being as they
were. -/
theorem C7_second_connect_wins {σ : Type} (P : Platform σ) (m : Module σ)
    (d : ble_data_sync_t) (c1 c2 : Nat) (hc2 : c2 ≠ BLE_CONN_HANDLE_INVALID) :
    ∃ d' : ble_data_sync_t,
      ble_data_sync_on_ble_evt P
          (ble_data_sync_on_ble_evt P m (some d) (some (ble_evt_t.BLE_GAP_EVT_CONNECTED c1))).2
          (ble_data_sync_on_ble_evt P m (some d) (some (ble_evt_t.BLE_GAP_EVT_CONNECTED c1))).1
          (some (ble_evt_t.BLE_GAP_EVT_CONNECTED c2)) = (some d', m) ∧
      d'.conn_handle ≠ BLE_CONN_HANDLE_INVALID ∧
      d'.conn_handle = c2 ∧
      d' = { d with conn_handle := c2 } := by
  exact ⟨on_connect (on_connect d c1) c2, rfl, hc2, rfl, rfl⟩

/-- C7 at the handles 3 and then 5, from a disconnected service. -/
theorem C7_second_connect_wins_witness :
    ∃ d' : ble_data_sync_t,
      ble_data_sync_on_ble_evt stack_ok
          (ble_data_sync_on_ble_evt stack_ok (module0 true)
            (some (service BLE_CONN_HANDLE_INVALID false))
            (some (ble_evt_t.BLE_GAP_EVT_CONNECTED 3))).2
          (ble_data_sync_on_ble_evt stack_ok (module0 true)
            (some (service BLE_CONN_HANDLE_INVALID false))
            (some (ble_evt_t.BLE_GAP_EVT_CONNECTED 3))).1
          (some (ble_evt_t.BLE_GAP_EVT_CONNECTED 5)) = (some d', module0 true) ∧
      d'.conn_handle ≠ BLE_CONN_HANDLE_INVALID ∧
      d'.conn_handle = 5 ∧
      d' = { service BLE_CONN_HANDLE_INVALID false with conn_handle := 5 } :=
  C7_second_connect_wins stack_ok (module0 true) (service BLE_CONN_HANDLE_INVALID false) 3 5
    (by decide)

/-! ## Start-up (C8) -/

/-- What `ble_data_sync_init` does with the statuses of the stack: it reads
those of the two characteristic registrations and no other. When both are
`NRF_SUCCESS` it returns `NRF_SUCCESS` with the flag set, whatever
`sd_ble_uuid_vs_add` and `sd_ble_gatts_service_add` answered. -/
theorem init_returns_of_characteristics {σ : Type} (P : Platform σ) (m : Module σ)
    (p_data : ble_data_sync_t) (p_data_init : ble_data_sync_init_t)
    (hchar : ∀ s h c a, (P.sd_ble_gatts_characteristic_add s h c a).1 = NRF_SUCCESS) :
    match ble_data_sync_init P m p_data p_data_init with
    | Except.ok (e, d, m') =>
      e = NRF_SUCCESS ∧ m'.m_is_data_sync_service_initialized = true ∧
        d.conn_handle = BLE_CONN_HANDLE_INVALID
    | Except.error _ => False := by
  simp [ble_data_sync_init, data_sync_rev_char_add, data_sync_ctrl_pt_add, APP_ERROR_CHECK, hchar]

/-- When the registration of the revision characteristic fails, the run is
aborted with a status other than `NRF_SUCCESS` and the flag is as it was. -/
theorem init_aborts_on_rev_char {σ : Type} (P : Platform σ) (m : Module σ)
    (p_data : ble_data_sync_t) (p_data_init : ble_data_sync_init_t)
    (hrev : ∀ s h c a, a.p_uuid.uuid = BLE_DATA_SYNC_REV_CHAR_UUID →
      (P.sd_ble_gatts_characteristic_add s h c a).1 ≠ NRF_SUCCESS) :
    match ble_data_sync_init P m p_data p_data_init with
    | Except.ok _ => False
    | Except.error (e, m') =>
      e ≠ NRF_SUCCESS ∧
        m'.m_is_data_sync_service_initialized = m.m_is_data_sync_service_initialized := by
  simp [ble_data_sync_init, data_sync_rev_char_add, APP_ERROR_CHECK, hrev]

/-- When the registration of the control-point characteristic fails, the run is
aborted with a status other than `NRF_SUCCESS` and the flag is as it was. -/
theorem init_aborts_on_ctrl_pt {σ : Type} (P : Platform σ) (m : Module σ)
    (p_data : ble_data_sync_t) (p_data_init : ble_data_sync_init_t)
    (hctrl : ∀ s h c a, a.p_uuid.uuid = BLE_DATA_SYNC_CTRL_PT_UUID →
      (P.sd_ble_gatts_characteristic_add s h c a).1 ≠ NRF_SUCCESS) :
    match ble_data_sync_init P m p_data p_data_init with
    | Except.ok _ => False
    | Except.error (e, m') =>
      e ≠ NRF_SUCCESS ∧
        m'.m_is_data_sync_service_initialized = m.m_is_data_sync_service_initialized := by
  unfold ble_data_sync_init data_sync_rev_char_add data_sync_ctrl_pt_add APP_ERROR_CHECK
  dsimp only
  split_ifs with h1 <;> simp_all

/-- C8, the failing input: on a stack whose `sd_ble_gatts_service_add` answers
with status 4 (no memory) and whose two `sd_ble_gatts_characteristic_add` calls
succeed, `ble_data_sync_init` returns `NRF_SUCCESS` and has set
`m_is_data_sync_service_initialized`: the failed service registration is
neither reported nor fatal. -/
theorem C8_service_add_failure_ignored :
    (∀ s t u, ((stack 0 [1, 0] 0 4 (fun _ => 0)).sd_ble_gatts_service_add s t u).1 = 4) ∧
    4 ≠ NRF_SUCCESS ∧
    ∃ d m', ble_data_sync_init (stack 0 [1, 0] 0 4 (fun _ => 0)) (module0 false)
        (service BLE_CONN_HANDLE_INVALID false)
        { revision := 1, evt_handler := false, error_handler := false } =
          Except.ok (NRF_SUCCESS, d, m') ∧
      m'.m_is_data_sync_service_initialized = true ∧
      Call.sd_ble_gatts_service_add BLE_GATTS_SRVC_TYPE_PRIMARY
        { uuid := BLE_DATA_SYNC_SERVICE_UUID, type := 2 } ∈ m'.calls := by
  refine ⟨fun _ _ _ => rfl, by decide, _, _, rfl, rfl, ?_⟩
  decide

/-! ## The header of an empty write (C9) -/

/-- C9, as stated, fails: a write event to the control-point value handle (14)
with zero data bytes, on an initialized, connected and subscribed service,
whose data slot 0 holds 0x5A. `on_write` takes that byte as the header without
looking at `len`, executes the start command and requests the response
notification `[0x5B, 2, 1]`. -/
theorem C9_counterexample_empty_write :
    (write_of 14 0 0x5A).len = 0 ∧
    (write_of 14 0 0x5A).handle = (service 0 false).data_sync_ctrl_pt_handles.value_handle ∧
    (is_cccd_configured stack_ok (module0 true) (service 0 false)).1 = true ∧
    notifications (ble_data_sync_on_ble_evt stack_ok (module0 true) (some (service 0 false))
      (some (ble_evt_t.BLE_GATTS_EVT_WRITE 0 (write_of 14 0 0x5A)))).2.calls =
        [(0, { handle := 14, type := BLE_GATT_HVX_NOTIFICATION, offset := 0, p_len := 3,
               p_data := [0x5B, 2, 1, 0, 0, 0, 0] })] := by
  decide

/-- C9, amended: an empty write is not rejected. For every write event to the
control-point value handle with zero data bytes for which the subscription
check returns true, the header is the byte held by slot 0 of the event data:
when it is not 0x5A the event ends after the subscription check, no command
executed and no notification requested; when it is 0x5A the start command is
executed as for any other length; and in neither case is the error callback
called. -/
theorem C9_empty_write_header_is_slot_zero {σ : Type} (P : Platform σ) (m : Module σ)
    (d : ble_data_sync_t) (c : Nat) (w : ble_gatts_evt_write_t)
    (_hlen : w.len = 0)
    (hh : w.handle = d.data_sync_ctrl_pt_handles.value_handle)
    (hsub : (is_cccd_configured P m d).1 = true) :
    (ble_data_sync_on_ble_evt P m (some d) (some (ble_evt_t.BLE_GATTS_EVT_WRITE c w))).2 =
        (if w.data 0 = 0x5A then
          (ble_data_sync_response_send P (is_cccd_configured P m d).2 (some d)
            BLE_DATA_SYNC_INIT_PROCEDURE BLE_DATA_SYNC_RESP_VAL_SUCCESS).2
        else (is_cccd_configured P m d).2) ∧
      notifications (is_cccd_configured P m d).2.calls = notifications m.calls ∧
      error_reports (ble_data_sync_on_ble_evt P m (some d)
        (some (ble_evt_t.BLE_GATTS_EVT_WRITE c w))).2.calls = error_reports m.calls := by
  have hread := is_cccd_configured_true_read_ok P m d hsub
  have hrep : error_reports (is_cccd_configured P m d).2.calls = error_reports m.calls := by
    rw [is_cccd_configured_error_reports]
    simp [hread]
  have hev : (ble_data_sync_on_ble_evt P m (some d)
      (some (ble_evt_t.BLE_GATTS_EVT_WRITE c w))).2 = on_write P m d w := rfl
  rw [hev]
  by_cases hb : w.data 0 = 0x5A
  · rw [on_write_start P m d w hh hsub hb, if_pos hb]
    exact ⟨rfl, is_cccd_configured_notifications P m d,
      (response_send_error_reports P _ _ _ _).trans hrep⟩
  · rw [on_write_other_header P m d w hh hsub hb, if_neg hb]
    exact ⟨rfl, is_cccd_configured_notifications P m d, hrep⟩

/-- C9, amended, at an empty write whose data slot 0 holds 0. -/
theorem C9_empty_write_header_is_slot_zero_witness :
    (ble_data_sync_on_ble_evt stack_ok (module0 true) (some (service 0 false))
        (some (ble_evt_t.BLE_GATTS_EVT_WRITE 0 (write_of 14 0 0)))).2 =
        (if (write_of 14 0 0).data 0 = 0x5A then
          (ble_data_sync_response_send stack_ok
            (is_cccd_configured stack_ok (module0 true) (service 0 false)).2
            (some (service 0 false))
            BLE_DATA_SYNC_INIT_PROCEDURE BLE_DATA_SYNC_RESP_VAL_SUCCESS).2
        else (is_cccd_configured stack_ok (module0 true) (service 0 false)).2) ∧
      notifications (is_cccd_configured stack_ok (module0 true) (service 0 false)).2.calls =
        notifications (module0 true).calls ∧
      error_reports (ble_data_sync_on_ble_evt stack_ok (module0 true) (some (service 0 false))
        (some (ble_evt_t.BLE_GATTS_EVT_WRITE 0 (write_of 14 0 0)))).2.calls =
          error_reports (module0 true).calls :=
  C9_empty_write_header_is_slot_zero stack_ok (module0 true) (service 0 false) 0
    (write_of 14 0 0) rfl rfl (by decide)

/-! ## The status of a response (C10) -/

/-- C10: on a non-null service that is initialized and connected,
`ble_data_sync_response_send` makes exactly one call, a `sd_ble_gatts_hvx` for
the tracked connection, and returns the status that this call returned,
whether `NRF_SUCCESS` or not; the stack is left in the state that call left it
in. -/
theorem C10_status_is_that_of_hvx {σ : Type} (P : Platform σ) (m : Module σ)
    (d : ble_data_sync_t) (data_sync_proc resp_val : Nat)
    (hinit : m.m_is_data_sync_service_initialized = true)
    (hconn : d.conn_handle ≠ BLE_CONN_HANDLE_INVALID) :
    ∃ p : ble_gatts_hvx_params_t,
      (ble_data_sync_response_send P m (some d) data_sync_proc resp_val).2.calls =
        m.calls ++ [Call.sd_ble_gatts_hvx d.conn_handle p] ∧
      (ble_data_sync_response_send P m (some d) data_sync_proc resp_val).1 =
        (P.sd_ble_gatts_hvx m.softdevice d.conn_handle p).1 ∧
      (ble_data_sync_response_send P m (some d) data_sync_proc resp_val).2.softdevice =
        (P.sd_ble_gatts_hvx m.softdevice d.conn_handle p).2 := by
  refine ⟨response_params m d data_sync_proc resp_val, ?_, ?_, ?_⟩ <;>
    rw [response_send_ready P m d _ _ hinit hconn]

/-- C10 on a stack whose `sd_ble_gatts_hvx` fails with status 17. -/
theorem C10_status_is_that_of_hvx_witness :
    ∃ p : ble_gatts_hvx_params_t,
      (ble_data_sync_response_send (stack 0 [1, 0] 17 0 (fun _ => 0)) (module0 true)
          (some (service 0 false)) 3 6).2.calls =
        (module0 true).calls ++ [Call.sd_ble_gatts_hvx (service 0 false).conn_handle p] ∧
      (ble_data_sync_response_send (stack 0 [1, 0] 17 0 (fun _ => 0)) (module0 true)
          (some (service 0 false)) 3 6).1 =
        ((stack 0 [1, 0] 17 0 (fun _ => 0)).sd_ble_gatts_hvx (module0 true).softdevice
          (service 0 false).conn_handle p).1 ∧
      (ble_data_sync_response_send (stack 0 [1, 0] 17 0 (fun _ => 0)) (module0 true)
          (some (service 0 false)) 3 6).2.softdevice =
        ((stack 0 [1, 0] 17 0 (fun _ => 0)).sd_ble_gatts_hvx (module0 true).softdevice
          (service 0 false).conn_handle p).2 :=
  C10_status_is_that_of_hvx (stack 0 [1, 0] 17 0 (fun _ => 0)) (module0 true) (service 0 false)
    3 6 rfl (by decide)

/-! ## Runs of events and direct calls (C11) -/

/-- While the service is not connected or the module is not initialized, a
write event requests no notification. -/
theorem on_write_blocked {σ : Type} (P : Platform σ) (m : Module σ) (d : ble_data_sync_t)
    (w : ble_gatts_evt_write_t)
    (h : d.conn_handle = BLE_CONN_HANDLE_INVALID ∨
      m.m_is_data_sync_service_initialized = false) :
    notifications (on_write P m d w).calls = notifications m.calls := by
  have h1 : d.conn_handle = BLE_CONN_HANDLE_INVALID ∨
      (is_cccd_configured P m d).2.m_is_data_sync_service_initialized = false := by
    rw [(is_cccd_configured_statics P m d).1]; exact h
  unfold on_write
  split
  · dsimp only
    split
    · exact is_cccd_configured_notifications P m d
    · split
      · rw [response_send_blocked P _ d _ _ h1]
        exact is_cccd_configured_notifications P m d
      · exact is_cccd_configured_notifications P m d
  · rfl

/-- While the service is not connected or the module is not initialized, no
action requests a notification. -/
theorem step_blocked {σ : Type} (P : Platform σ) (s : ble_data_sync_t × Module σ) (a : Action)
    (h : s.1.conn_handle = BLE_CONN_HANDLE_INVALID ∨
      s.2.m_is_data_sync_service_initialized = false) :
    notifications (step P s a).2.calls = notifications s.2.calls := by
  cases a with
  | event e =>
    cases e with
    | BLE_GAP_EVT_CONNECTED c => rfl
    | BLE_GATTS_EVT_WRITE c w => exact on_write_blocked P s.2 s.1 w h
    | BLE_GAP_EVT_DISCONNECTED c => rfl
    | other n => rfl
  | response_send data_sync_proc resp_val =>
    show notifications (ble_data_sync_response_send P s.2 (some s.1) data_sync_proc
      resp_val).2.calls = _
    rw [response_send_blocked P s.2 s.1 _ _ h]

/-- The connection handle at the end of a run, against the kind of the latest
connect or disconnect event: that event is a connect, or the handle is
`BLE_CONN_HANDLE_INVALID`, or the run holds no such event and the handle is the
one the run started with. -/
theorem run_link {σ : Type} (P : Platform σ) (as : List Action) :
    ∀ (s : ble_data_sync_t × Module σ) (prev : Option Bool),
      as.foldl link_after prev = some true ∨
      (run P s as).1.conn_handle = BLE_CONN_HANDLE_INVALID ∨
      (as.foldl link_after prev = prev ∧ (run P s as).1.conn_handle = s.1.conn_handle) := by
  induction as with
  | nil =>
    intro s prev
    exact Or.inr (Or.inr ⟨rfl, rfl⟩)
  | cons a as ih =>
    intro s prev
    have h := ih (step P s a) (link_after prev a)
    show List.foldl link_after (link_after prev a) as = some true ∨
      (run P (step P s a) as).1.conn_handle = BLE_CONN_HANDLE_INVALID ∨
      (List.foldl link_after (link_after prev a) as = prev ∧
        (run P (step P s a) as).1.conn_handle = s.1.conn_handle)
    cases a with
    | event e =>
      cases e with
      | BLE_GAP_EVT_CONNECTED c =>
        rcases h with h | h | ⟨h, _⟩
        · exact Or.inl h
        · exact Or.inr (Or.inl h)
        · exact Or.inl h
      | BLE_GATTS_EVT_WRITE c w => exact h
      | BLE_GAP_EVT_DISCONNECTED c =>
        rcases h with h | h | ⟨_, h⟩
        · exact Or.inl h
        · exact Or.inr (Or.inl h)
        · exact Or.inr (Or.inl h)
      | other n => exact h
    | response_send data_sync_proc resp_val => exact h

/-- C11, as stated, fails. Any service state may start the sequence; take the
zeroed structure with the flag false, the state before `ble_data_sync_init` has
stored `BLE_CONN_HANDLE_INVALID` in `conn_handle`. The sequence of one write
event and one direct `ble_data_sync_response_send` call holds no connect and no
disconnect event, so its most recent connect/disconnect event is not a
connect, yet `conn_handle` is 0 at the end and differs from
`BLE_CONN_HANDLE_INVALID`. -/
theorem C11_counterexample_connected_at_start :
    (run stack_ok (service_zeroed, module0 false)
      [Action.event (ble_evt_t.BLE_GATTS_EVT_WRITE 0 (write_of 14 1 0x5A)),
        Action.response_send 2 1]).1.conn_handle = 0 ∧
    (run stack_ok (service_zeroed, module0 false)
      [Action.event (ble_evt_t.BLE_GATTS_EVT_WRITE 0 (write_of 14 1 0x5A)),
        Action.response_send 2 1]).1.conn_handle ≠ BLE_CONN_HANDLE_INVALID ∧
    last_link_event [Action.event (ble_evt_t.BLE_GATTS_EVT_WRITE 0 (write_of 14 1 0x5A)),
      Action.response_send 2 1] = none ∧
    last_link_event [Action.event (ble_evt_t.BLE_GATTS_EVT_WRITE 0 (write_of 14 1 0x5A)),
      Action.response_send 2 1] ≠ some true := by
  decide

/-- C11, amended: for every sequence of events (connect, write, disconnect or
other) and direct `ble_data_sync_response_send` calls, from any service and
module state: (1) an action of the sequence that requests a notification
happens in a state whose initialized flag is true and whose `conn_handle` is
not `BLE_CONN_HANDLE_INVALID`; (2) at the end `conn_handle` differs from
`BLE_CONN_HANDLE_INVALID` only if the most recent connect/disconnect event of
the sequence was a connect or, the sequence holding no such event,
`conn_handle` is the one of the starting state and differed from
`BLE_CONN_HANDLE_INVALID` there. -/
theorem C11_run_invariants {σ : Type} (P : Platform σ) (s0 : ble_data_sync_t × Module σ)
    (as : List Action) :
    (∀ (pre : List Action) (a : Action) (post : List Action), as = pre ++ a :: post →
      notifications (step P (run P s0 pre) a).2.calls ≠
        notifications (run P s0 pre).2.calls →
      (run P s0 pre).2.m_is_data_sync_service_initialized = true ∧
        (run P s0 pre).1.conn_handle ≠ BLE_CONN_HANDLE_INVALID) ∧
    ((run P s0 as).1.conn_handle ≠ BLE_CONN_HANDLE_INVALID →
      last_link_event as = some true ∨
        (last_link_event as = none ∧ (run P s0 as).1.conn_handle = s0.1.conn_handle ∧
          s0.1.conn_handle ≠ BLE_CONN_HANDLE_INVALID)) := by
  constructor
  · intro pre a post _ hne
    by_contra hnot
    apply hne
    apply step_blocked
    by_cases hc : (run P s0 pre).1.conn_handle = BLE_CONN_HANDLE_INVALID
    · exact Or.inl hc
    · right
      cases hf : (run P s0 pre).2.m_is_data_sync_service_initialized with
      | false => rfl
      | true => exact absurd ⟨hf, hc⟩ hnot
  · intro hconn
    rcases run_link P as s0 none with h | h | ⟨h1, h2⟩
    · exact Or.inl h
    · exact absurd h hconn
    · exact Or.inr ⟨h1, h2, fun h0 => hconn (h2.trans h0)⟩

/-- C11, amended, at the sequence connect 3, write of the start command,
disconnect, direct call, from the state `ble_data_sync_init` leaves: the write
requests a notification and happens initialized and connected, and after the
first two events the service is connected and the latest connect/disconnect
event is a connect. -/
theorem C11_run_invariants_witness :
    (notifications (step stack_ok
        (run stack_ok (service BLE_CONN_HANDLE_INVALID false, module0 true)
          [Action.event (ble_evt_t.BLE_GAP_EVT_CONNECTED 3)])
        (Action.event (ble_evt_t.BLE_GATTS_EVT_WRITE 3 (write_of 14 1 0x5A)))).2.calls ≠
      notifications (run stack_ok (service BLE_CONN_HANDLE_INVALID false, module0 true)
        [Action.event (ble_evt_t.BLE_GAP_EVT_CONNECTED 3)]).2.calls) ∧
    ((run stack_ok (service BLE_CONN_HANDLE_INVALID false, module0 true)
        [Action.event (ble_evt_t.BLE_GAP_EVT_CONNECTED 3)]).2.m_is_data_sync_service_initialized =
          true ∧
      (run stack_ok (service BLE_CONN_HANDLE_INVALID false, module0 true)
        [Action.event (ble_evt_t.BLE_GAP_EVT_CONNECTED 3)]).1.conn_handle ≠
          BLE_CONN_HANDLE_INVALID) ∧
    (run stack_ok (service BLE_CONN_HANDLE_INVALID false, module0 true)
      [Action.event (ble_evt_t.BLE_GAP_EVT_CONNECTED 3),
        Action.event (ble_evt_t.BLE_GATTS_EVT_WRITE 3 (write_of 14 1 0x5A))]).1.conn_handle ≠
          BLE_CONN_HANDLE_INVALID ∧
    last_link_event [Action.event (ble_evt_t.BLE_GAP_EVT_CONNECTED 3),
      Action.event (ble_evt_t.BLE_GATTS_EVT_WRITE 3 (write_of 14 1 0x5A))] = some true :=
  ⟨by decide,
    (C11_run_invariants stack_ok (service BLE_CONN_HANDLE_INVALID false, module0 true)
      [Action.event (ble_evt_t.BLE_GAP_EVT_CONNECTED 3),
        Action.event (ble_evt_t.BLE_GATTS_EVT_WRITE 3 (write_of 14 1 0x5A)),
        Action.event (ble_evt_t.BLE_GAP_EVT_DISCONNECTED 3),
        Action.response_send 2 1]).1
      [Action.event (ble_evt_t.BLE_GAP_EVT_CONNECTED 3)]
      (Action.event (ble_evt_t.BLE_GATTS_EVT_WRITE 3 (write_of 14 1 0x5A)))
      [Action.event (ble_evt_t.BLE_GAP_EVT_DISCONNECTED 3), Action.response_send 2 1]
      rfl (by decide),
    by decide, by decide⟩

/-! ## Writes to other attributes (C12) -/

/-- C12: a write event whose target handle is not the control-point value
handle leaves everything as it was. `ble_data_sync_on_ble_evt` hands back the
service structure, `conn_handle` included, and the module state unchanged:
the initialized flag, the notification buffer, the stack state and the call
log, so that the subscription descriptor is not read, the error callback is
not called and no notification is requested. -/
theorem C12_other_handle_no_op {σ : Type} (P : Platform σ) (m : Module σ)
    (d : ble_data_sync_t) (c : Nat) (w : ble_gatts_evt_write_t)
    (hh : w.handle ≠ d.data_sync_ctrl_pt_handles.value_handle) :
    ble_data_sync_on_ble_evt P m (some d) (some (ble_evt_t.BLE_GATTS_EVT_WRITE c w)) =
        (some d, m) ∧
      (ble_data_sync_on_ble_evt P m (some d)
        (some (ble_evt_t.BLE_GATTS_EVT_WRITE c w))).2.calls = m.calls ∧
      (ble_data_sync_on_ble_evt P m (some d)
        (some (ble_evt_t.BLE_GATTS_EVT_WRITE c w))).2.m_is_data_sync_service_initialized =
          m.m_is_data_sync_service_initialized ∧
      (ble_data_sync_on_ble_evt P m (some d)
        (some (ble_evt_t.BLE_GATTS_EVT_WRITE c w))).2.m_notif_buffer = m.m_notif_buffer ∧
      (ble_data_sync_on_ble_evt P m (some d)
        (some (ble_evt_t.BLE_GATTS_EVT_WRITE c w))).2.softdevice = m.softdevice := by
  have hev : ble_data_sync_on_ble_evt P m (some d) (some (ble_evt_t.BLE_GATTS_EVT_WRITE c w)) =
      (some d, m) := by
    show (some d, on_write P m d w) = (some d, m)
    simp [on_write, hh]
  rw [hev]
  exact ⟨rfl, rfl, rfl, rfl, rfl⟩

/-- C12 at a write of the header 0x5A to the revision value handle (16), on an
initialized, connected service with an error callback whose descriptor read
would fail. -/
theorem C12_other_handle_no_op_witness :
    ble_data_sync_on_ble_evt (stack 5 [] 0 0 (fun _ => 0)) (module0 true) (some (service 0 true))
        (some (ble_evt_t.BLE_GATTS_EVT_WRITE 0 (write_of 16 1 0x5A))) =
        (some (service 0 true), module0 true) ∧
      (ble_data_sync_on_ble_evt (stack 5 [] 0 0 (fun _ => 0)) (module0 true)
        (some (service 0 true))
        (some (ble_evt_t.BLE_GATTS_EVT_WRITE 0 (write_of 16 1 0x5A)))).2.calls =
          (module0 true).calls ∧
      (ble_data_sync_on_ble_evt (stack 5 [] 0 0 (fun _ => 0)) (module0 true)
        (some (service 0 true))
        (some (ble_evt_t.BLE_GATTS_EVT_WRITE 0
          (write_of 16 1 0x5A)))).2.m_is_data_sync_service_initialized =
          (module0 true).m_is_data_sync_service_initialized ∧
      (ble_data_sync_on_ble_evt (stack 5 [] 0 0 (fun _ => 0)) (module0 true)
        (some (service 0 true))
        (some (ble_evt_t.BLE_GATTS_EVT_WRITE 0 (write_of 16 1 0x5A)))).2.m_notif_buffer =
          (module0 true).m_notif_buffer ∧
      (ble_data_sync_on_ble_evt (stack 5 [] 0 0 (fun _ => 0)) (module0 true)
        (some (service 0 true))
        (some (ble_evt_t.BLE_GATTS_EVT_WRITE 0 (write_of 16 1 0x5A)))).2.softdevice =
          (module0 true).softdevice :=
  C12_other_handle_no_op (stack 5 [] 0 0 (fun _ => 0)) (module0 true) (service 0 true) 0
    (write_of 16 1 0x5A) (by decide)

end BleDataSync
